import Mathlib

/-!
Verification of the recording-session lifecycle and offline-first
synchronization core of the xow-dashboard booth-recording application.

The embedding covers:
* the recorder screen state and its operations (startRecording,
  stopRecording, handleBarcode) from src/frontend/app/recorder.tsx;
* the local session store (getLocalRecordings, the markUploaded write)
  backed by a single AsyncStorage slot;
* the two cloud-promotion routines: uploadRecordingToCloud
  (recorder.tsx) and uploadToCloud (the gallery screen), which differ
  in how media-upload failures are treated;
* the gallery reconciliation list (fetchRecordings).

Times are modelled in integer milliseconds (Date.now()); JS number
timestamps (fractional seconds) are modelled as rationals; JS
setInterval is idealized as firing exactly once per period while the
timer is installed, so a 1000 ms interval running from t0 until tEnd
fires (tEnd - t0) / 1000 times (integer division).
-/

namespace XoW

/-- Whitespace test used by the model of JavaScript String.prototype.trim. -/
def isSpaceChar (c : Char) : Bool :=
  c = ' ' || c = '\t' || c = '\n' || c = '\r'

/-- Model of JavaScript String.prototype.trim on the character list:
drop leading whitespace, then drop trailing whitespace. -/
def trimChars (l : List Char) : List Char :=
  ((l.dropWhile isSpaceChar).reverse.dropWhile isSpaceChar).reverse

/-- Model of JavaScript String.prototype.trim. -/
def jsTrim (s : String) : String :=
  ⟨trimChars s.data⟩

/-- Scan Event as stored by the app (interface BarcodeData in
recorder.tsx and the gallery screen): raw badge payload, video
timestamp in seconds since session start, and the frame counter value
at scan time. -/
structure BarcodeData where
  barcode_data : String
  video_timestamp : ℚ
  frame_code : ℕ
deriving Repr, DecidableEq

/-- Local Session record (interface LocalRecording): the durable
representation of a finished recording that has not necessarily been
promoted to the cloud yet.  createdAt is modelled as epoch
milliseconds. -/
structure LocalRecording where
  id : String
  localId : String
  videoPath : Option String
  audioPath : Option String
  barcodeScansList : List BarcodeData
  duration : ℕ
  createdAt : ℕ
  isUploaded : Bool
  boothName : String
  deviceId : String
deriving Repr, DecidableEq, Inhabited

/-- Cloud Session record (interface CloudRecording), the fields the
reconciliation list uses.  start_time is modelled as epoch
milliseconds. -/
structure CloudRecording where
  id : String
  start_time : ℕ
  status : String
  has_audio : Bool
  has_video : Bool
deriving Repr, DecidableEq

/-- Content of the single AsyncStorage slot (key xow_local_recordings):
either serialized JSON that parses back to a list of LocalRecording
(the only shape this app ever writes there), or corrupt content on
which JSON.parse throws. -/
inductive RawValue where
  | good (recs : List LocalRecording)
  | corrupt
deriving Repr, DecidableEq

/-- State of the AsyncStorage slot: none models an empty slot
(AsyncStorage.getItem returns null). -/
def RawStore : Type := Option RawValue

instance : DecidableEq RawStore := by
  unfold RawStore
  infer_instance

/-- Embeds getLocalRecordings (identical in recorder.tsx and the
gallery screen): read the slot; null gives the empty list; a parse
failure is caught and gives the empty list. -/
def getLocalRecordings (slot : RawStore) : List LocalRecording :=
  match slot with
  | none => []
  | some (RawValue.good recs) => recs
  | some RawValue.corrupt => []

/-- Model of JavaScript Array.prototype.findIndex returning an Option
instead of -1. -/
def findIndex (p : α → Bool) : List α → Option ℕ
  | [] => none
  | a :: l => if p a then some 0 else (findIndex p l).map (· + 1)

/-- Replacement of the element at one index (the single in-place
mutation localRecordings[idx].… = … performed after findIndex). -/
def modifyAt (f : α → α) : List α → ℕ → List α
  | [], _ => []
  | a :: l, 0 => f a :: l
  | a :: l, n + 1 => a :: modifyAt f l n

/-- Paired device information (interface Device), as read from the
xow_device slot. -/
structure DeviceInfo where
  device_id : String
  name : String
deriving Repr, DecidableEq

/-- Mutable state of RecorderScreen that the session lifecycle touches:
the useState hooks and useRef cells of recorder.tsx that startRecording,
stopRecording and handleBarcode read or write. -/
structure RecorderState where
  isRecording : Bool
  isSaving : Bool
  currentRecording : Option String
  recordingStartTime : ℕ
  recordingTime : ℕ
  frameCount : ℕ
  barcodeScans : List BarcodeData
  barcodeCount : ℕ
  barcodeInput : String
  videoUriRef : Option String
  videoRecordingActive : Bool
deriving Repr, DecidableEq

/-- Embeds startRecording (recorder.tsx): an early return when no
device is paired, otherwise reset every per-session counter, install a
fresh local id, remember the wall-clock start, and request the capture
sources.  startVideo records whether the camera ref is present on a
non-web platform (the condition guarding recordAsync); its failure is
caught inside the function.  Note the function contains no check of
isRecording: it unconditionally installs the new session. -/
def startRecording (dev : Option DeviceInfo) (now : ℕ) (freshId : String)
    (startVideo : Bool) (s : RecorderState) : RecorderState :=
  match dev with
  | none => s
  | some _ =>
    { s with
      isRecording := true
      frameCount := 0
      barcodeCount := 0
      barcodeScans := []
      recordingTime := 0
      recordingStartTime := now
      videoUriRef := none
      currentRecording := some freshId
      videoRecordingActive := startVideo }

/-- Embeds handleBarcode (recorder.tsx): reject when the trimmed input
is empty or no recording is active; otherwise append one Scan Event
carrying the trimmed payload, the elapsed seconds since
recordingStartTime (Date.now() minus start, divided by 1000), and the
current frame counter, then clear the input field. -/
def handleBarcode (now : ℕ) (s : RecorderState) : RecorderState :=
  if jsTrim s.barcodeInput = "" || !s.isRecording then s
  else
    let bc := jsTrim s.barcodeInput
    let ts : ℚ := ((now : ℚ) - (s.recordingStartTime : ℚ)) / 1000
    { s with
      barcodeScans := s.barcodeScans ++
        [{ barcode_data := bc, video_timestamp := ts, frame_code := s.frameCount }]
      barcodeCount := s.barcodeCount + 1
      barcodeInput := "" }

/-- Which handler a press of the record button invokes. -/
inductive RecAction where
  | start
  | stop
  | disabled
deriving Repr, DecidableEq

/-- Embeds the record button of RecorderScreen: the TouchableOpacity is
disabled while isSaving, and its onPress is stopRecording when
isRecording and startRecording otherwise. -/
def pressRecordAction (s : RecorderState) : RecAction :=
  if s.isSaving then RecAction.disabled
  else if s.isRecording then RecAction.stop
  else RecAction.start

/-- The Session Clock as realized in recorder.tsx: recordingTime driven
by a 1000 ms interval and the frame counter driven by a 33.33 ms
interval, both installed by startRecording and cleared by
stopRecording.  running models whether the interval handles are
installed. -/
structure ClockState where
  running : Bool
  elapsedSeconds : ℕ
  frameCounter : ℕ
deriving Repr, DecidableEq

/-- Clock start as performed by startRecording: reset both counters to
zero and install the interval timers. -/
def clockStart (_c : ClockState) : ClockState :=
  { running := true, elapsedSeconds := 0, frameCounter := 0 }

/-- One firing of the 1000 ms interval: recordingTime increases by one.
An interval only fires while its handle is installed. -/
def clockTickSecond (c : ClockState) : ClockState :=
  if c.running then { c with elapsedSeconds := c.elapsedSeconds + 1 } else c

/-- One firing of the 33.33 ms interval: frameCountRef.current += 1. -/
def clockTickFrame (c : ClockState) : ClockState :=
  if c.running then { c with frameCounter := c.frameCounter + 1 } else c

/-- Clock stop as performed by the teardown at the top of
stopRecording: clearInterval on each installed handle (a no-op when
already cleared) and read of the final recordingTime and frame count.
Returns the final values together with the new clock state. -/
def clockStop (c : ClockState) : (ℕ × ℕ) × ClockState :=
  ((c.elapsedSeconds, c.frameCounter), { c with running := false })

/-- Remote calls a promotion can attempt, in the order the code issues
them. -/
inductive Step where
  | create
  | videoUpload
  | audioUpload
  | scanSubmit (i : ℕ)
  | complete
  | storeUpdate
deriving Repr, DecidableEq

/-- Outcomes of the environment during one promotion attempt: the
result of each remote call and of the final local-store write.  A
result of none models a thrown/rejected call; an upload status is the
HTTP status code of FileSystem.uploadAsync. -/
structure SyncEnv where
  createResult : Option String
  videoFileExists : Bool
  videoUploadStatus : Option ℕ
  audioFileExists : Bool
  audioUploadStatus : Option ℕ
  completeOk : Bool
  storeWriteOk : Bool
deriving Repr, DecidableEq

/-- Status check the gallery screen applies to an upload result. -/
def statusOk (st : ℕ) : Bool :=
  200 ≤ st && st < 300

/-- Outcome of one media-upload block of the gallery uploadToCloud:
true when control continues past the block, false when the block throws
(a rejected uploadAsync, or the explicit throw on a non-2xx status).
A missing path or a missing file skips the upload and continues. -/
def galleryMediaOk (path : Option String) (fileExists : Bool)
    (upStatus : Option ℕ) : Bool :=
  match path with
  | none => true
  | some _ =>
    if fileExists then
      match upStatus with
      | none => false
      | some st => statusOk st
    else true

/-- Embeds the store-update tail shared verbatim by both promotion
routines, for the case where the AsyncStorage write succeeds: re-read
the store, findIndex by localId, and when found set that entry's remote
id and uploaded flag and write the list back; when not found, no write
happens. -/
def markUploaded (slot : RawStore) (localId recordingId : String) : RawStore :=
  match findIndex (fun r => r.localId == localId) (getLocalRecordings slot) with
  | none => slot
  | some idx =>
    some (RawValue.good
      (modifyAt (fun r => { r with id := recordingId, isUploaded := true })
        (getLocalRecordings slot) idx))

/-- Embeds uploadToCloud of the gallery screen.  Every step sits inside
one try/catch whose catch shows the Upload Failed alert, except the
per-scan posts which have their own inner catch.  The video and audio
blocks throw on a rejected upload or a non-2xx status, aborting the
promotion.  Returns the attempted steps, the resulting store slot, and
some remoteId on success (none when the attempt was aborted). -/
def uploadToCloud (env : SyncEnv) (deviceId : Option String) (slot : RawStore)
    (recording : LocalRecording) : List Step × RawStore × Option String :=
  match deviceId with
  | none => ([], slot, none)
  | some _ =>
    match env.createResult with
    | none => ([Step.create], slot, none)
    | some recordingId =>
      let videoAttempted := recording.videoPath.isSome && env.videoFileExists
      let steps1 := [Step.create] ++ (if videoAttempted then [Step.videoUpload] else [])
      if !(galleryMediaOk recording.videoPath env.videoFileExists env.videoUploadStatus) then
        (steps1, slot, none)
      else
        let audioAttempted := recording.audioPath.isSome && env.audioFileExists
        let steps2 := steps1 ++ (if audioAttempted then [Step.audioUpload] else [])
        if !(galleryMediaOk recording.audioPath env.audioFileExists env.audioUploadStatus) then
          (steps2, slot, none)
        else
          let steps3 := steps2
            ++ (List.range recording.barcodeScansList.length).map Step.scanSubmit
            ++ [Step.complete]
          if !env.completeOk then
            (steps3, slot, none)
          else
            let locals := getLocalRecordings slot
            match findIndex (fun r => r.localId == recording.localId) locals with
            | none => (steps3, slot, some recordingId)
            | some idx =>
              if env.storeWriteOk then
                (steps3 ++ [Step.storeUpdate],
                 some (RawValue.good
                   (modifyAt (fun r => { r with id := recordingId, isUploaded := true })
                     locals idx)),
                 some recordingId)
              else
                (steps3 ++ [Step.storeUpdate], slot, none)

/-- Embeds uploadRecordingToCloud of recorder.tsx.  Unlike the gallery
version, each media-upload block is wrapped in its own try/catch that
logs and swallows any failure, and the upload status is never
inspected, so a media failure never aborts the promotion; the create
and complete calls and the final store write are not caught here and
abort the attempt when they fail.  Returns the attempted steps, the
resulting store slot, and some remoteId on success. -/
def uploadRecordingToCloud (env : SyncEnv) (dev : Option DeviceInfo) (slot : RawStore)
    (recording : LocalRecording) : List Step × RawStore × Option String :=
  match dev with
  | none => ([], slot, none)
  | some _ =>
    match env.createResult with
    | none => ([Step.create], slot, none)
    | some recordingId =>
      let videoAttempted := recording.videoPath.isSome && env.videoFileExists
      let steps1 := [Step.create] ++ (if videoAttempted then [Step.videoUpload] else [])
      let audioAttempted := recording.audioPath.isSome && env.audioFileExists
      let steps2 := steps1 ++ (if audioAttempted then [Step.audioUpload] else [])
      let steps3 := steps2
        ++ (List.range recording.barcodeScansList.length).map Step.scanSubmit
        ++ [Step.complete]
      if !env.completeOk then
        (steps3, slot, none)
      else
        let locals := getLocalRecordings slot
        match findIndex (fun r => r.localId == recording.localId) locals with
        | none => (steps3, slot, some recordingId)
        | some idx =>
          if env.storeWriteOk then
            (steps3 ++ [Step.storeUpdate],
             some (RawValue.good
               (modifyAt (fun r => { r with id := recordingId, isUploaded := true })
                 locals idx)),
             some recordingId)
          else
            (steps3 ++ [Step.storeUpdate], slot, none)

/-- Tagged union of the two session shapes the gallery displays. -/
inductive CombinedRecording where
  | localRec (r : LocalRecording)
  | cloudRec (r : CloudRecording)
deriving Repr, DecidableEq

/-- Date key the gallery comparator uses: createdAt for a local entry,
start_time for a cloud entry. -/
def combinedDate : CombinedRecording → ℕ
  | CombinedRecording.localRec r => r.createdAt
  | CombinedRecording.cloudRec r => r.start_time

/-- Insertion step of a newest-first sort by combinedDate. -/
def insertByDateDesc (x : CombinedRecording) :
    List CombinedRecording → List CombinedRecording
  | [] => [x]
  | y :: ys =>
    if combinedDate y ≤ combinedDate x then x :: y :: ys
    else y :: insertByDateDesc x ys

/-- Model of combined.sort with the comparator dateB - dateA: any
comparator-correct sort produces a list ordered newest first with the
same members; an insertion sort realizes that contract. -/
def sortByDateDesc (l : List CombinedRecording) : List CombinedRecording :=
  l.foldr insertByDateDesc []

/-- Embeds fetchRecordings of the gallery screen: read the local store,
fetch the cloud listing (a failed fetch is caught and leaves the cloud
list empty), keep only local entries whose uploaded flag is false, tag
and concatenate both lists, and sort newest first. -/
def fetchRecordings (slot : RawStore) (cloudResult : Option (List CloudRecording)) :
    List CombinedRecording :=
  let localRecordings := getLocalRecordings slot
  let cloudRecordings := match cloudResult with
    | some l => l
    | none => []
  let combined :=
    (localRecordings.filter (fun r => !r.isUploaded)).map CombinedRecording.localRec
      ++ cloudRecordings.map CombinedRecording.cloudRec
  sortByDateDesc combined

/-- Environment of one stopRecording run: when (at which poll index)
the pending video handle becomes available, the result of stopping the
audio recorder (none models a throw, which the code catches), the
wall-clock time at record assembly, the outcome of the AsyncStorage
write, the auto-upload settings, and the environment of the nested
upload attempt. -/
structure StopEnv where
  videoArrival : Option (ℕ × String)
  audioStopResult : Option (Option String)
  nowEnd : ℕ
  storeWriteOk : Bool
  autoUpload : Bool
  isOnline : Bool
  uploadEnv : SyncEnv
deriving Repr, DecidableEq

/-- The bounded polling loop of stopRecording: up to 100 iterations,
each a 100 ms sleep followed by a check of videoUriRef.  Returns the
handle found (none when it never arrived within the bound) and the
number of polls performed. -/
def pollForVideo (arrival : Option (ℕ × String)) : Option String × ℕ :=
  match arrival with
  | some (k, u) => if k < 100 then (some u, k + 1) else (none, 100)
  | none => (none, 100)

/-- Embeds stopRecording of recorder.tsx: an early return when no
session is active; otherwise clear the interval timers, stop video
capture and poll (bounded) for its handle when a video recording was
started, stop the audio recorder (failure caught, leaving the handle
absent), assemble the LocalRecording from the frozen counters and scan
list, unshift it into the store, optionally attempt the auto upload
(whose failure is caught at this call site), and reset the per-session
state.  A failed store write is caught by the outer catch: the record
is not persisted, the session state is not reset, and no error reaches
the caller.  Returns the new screen state, the new store slot, and the
number of video polls performed. -/
def stopRecording (env : StopEnv) (dev : Option DeviceInfo) (s : RecorderState)
    (slot : RawStore) : RecorderState × RawStore × ℕ :=
  match s.currentRecording with
  | none => (s, slot, 0)
  | some localId =>
    let s1 := { s with isSaving := true, isRecording := false }
    let pv : Option String × ℕ :=
      if s.videoRecordingActive then pollForVideo env.videoArrival else (none, 0)
    let videoUri := pv.1
    let polls := pv.2
    let audioUri : Option String :=
      match env.audioStopResult with
      | none => none
      | some u => u
    let s2 := { s1 with videoRecordingActive := false }
    let localRecording : LocalRecording :=
      { id := ""
        localId := localId
        videoPath := videoUri
        audioPath := audioUri
        barcodeScansList := s.barcodeScans
        duration := s.recordingTime
        createdAt := env.nowEnd
        isUploaded := false
        boothName := match dev with | some d => d.name | none => "Unknown Booth"
        deviceId := match dev with | some d => d.device_id | none => "" }
    let existing := getLocalRecordings slot
    if env.storeWriteOk then
      let slot1 : RawStore := some (RawValue.good (localRecording :: existing))
      let slot2 :=
        if env.autoUpload && env.isOnline && (videoUri.isSome || audioUri.isSome) then
          (uploadRecordingToCloud env.uploadEnv dev slot1 localRecording).2.1
        else slot1
      ({ s2 with
          isSaving := false
          currentRecording := none
          recordingTime := 0
          frameCount := 0
          barcodeCount := 0
          barcodeScans := []
          videoUriRef := none }, slot2, polls)
    else
      ({ s2 with isSaving := false }, slot, polls)

/-- One firing of the installed 1000 ms recording timer:
recordingTime increases by one. -/
def tickSecondR (s : RecorderState) : RecorderState :=
  { s with recordingTime := s.recordingTime + 1 }

/-- One firing of the installed 33.33 ms frame timer: the frame
counter increases by one. -/
def tickFrameR (s : RecorderState) : RecorderState :=
  { s with frameCount := s.frameCount + 1 }

/-- Typing a payload into the badge field and submitting it at
wall-clock time t: setBarcodeInput followed by handleBarcode. -/
def submitScan (s : RecorderState) (t : ℕ) (payload : String) : RecorderState :=
  handleBarcode t { s with barcodeInput := payload }

/-- A sequence of scan submissions, each a (wall-clock time, raw
payload) pair, performed during one session. -/
def runScans (s : RecorderState) (scans : List (ℕ × String)) : RecorderState :=
  scans.foldl (fun st p => submitScan st p.1 p.2) s

/-- Duration recorded for a session started at t0 and stopped at tEnd
(both in milliseconds): the number of firings of the 1000 ms interval
between installation and teardown, under the idealized interval
semantics (integer division). -/
def sessionDuration (t0 tEnd : ℕ) : ℕ :=
  (tEnd - t0) / 1000

/-- Payload wellformedness recorded events satisfy: non-empty, no
leading whitespace and no trailing whitespace. -/
def goodPayload (p : String) : Prop :=
  p ≠ "" ∧
  (∀ c, p.data.head? = some c → isSpaceChar c = false) ∧
  (∀ c, p.data.getLast? = some c → isSpaceChar c = false)

/-- Concrete paired device used by concrete runs. -/
def devA : DeviceInfo :=
  { device_id := "DEV1", name := "Booth A" }

/-- Concrete already-recorded Scan Event used by concrete runs. -/
def evA : BarcodeData :=
  { barcode_data := "BADGE-001", video_timestamp := 5, frame_code := 150 }

/-- Concrete screen state in the middle of an active session rec_A. -/
def sRecordingA : RecorderState :=
  { isRecording := true
    isSaving := false
    currentRecording := some "rec_A"
    recordingStartTime := 100
    recordingTime := 7
    frameCount := 210
    barcodeScans := [evA]
    barcodeCount := 1
    barcodeInput := ""
    videoUriRef := none
    videoRecordingActive := true }

/-- Concrete idle screen state (all fields at their initial values). -/
def sIdle : RecorderState :=
  { isRecording := false
    isSaving := false
    currentRecording := none
    recordingStartTime := 0
    recordingTime := 0
    frameCount := 0
    barcodeScans := []
    barcodeCount := 0
    barcodeInput := ""
    videoUriRef := none
    videoRecordingActive := false }

/-- Concrete session run for the timestamp counterexample: start at
t = 0 ms, five firings of the second timer, one scan at t = 5700 ms,
stop at t = 5900 ms. -/
def c2State : RecorderState :=
  submitScan (tickSecondR^[5] (startRecording (some devA) 0 "rec_1" true sIdle))
    5700 "BADGE-001"

/-- Concrete stop environment for the timestamp counterexample: both
media handles absent, store write succeeds, no auto upload. -/
def c2StopEnv : StopEnv :=
  { videoArrival := none
    audioStopResult := some none
    nowEnd := 5900
    storeWriteOk := true
    autoUpload := false
    isOnline := false
    uploadEnv :=
      { createResult := none
        videoFileExists := false
        videoUploadStatus := none
        audioFileExists := false
        audioUploadStatus := none
        completeOk := false
        storeWriteOk := false } }

/-- The Local Session the timestamp-counterexample run persists. -/
def c2Record : LocalRecording :=
  (getLocalRecordings (stopRecording c2StopEnv (some devA) c2State none).2.1).headI

/-- Concrete local session awaiting promotion, with both media
handles present. -/
def recC3 : LocalRecording :=
  { id := ""
    localId := "rec_1"
    videoPath := some "file:v.mov"
    audioPath := some "file:a.m4a"
    barcodeScansList := [evA]
    duration := 8
    createdAt := 1000
    isUploaded := false
    boothName := "Booth A"
    deviceId := "DEV1" }

/-- Concrete store slot holding exactly recC3. -/
def slotC3 : RawStore :=
  some (RawValue.good [recC3])

/-- Concrete promotion environment in which only the video upload
fails (HTTP 500): remote-entry creation, audio upload, completion and
the store write all succeed. -/
def envC3 : SyncEnv :=
  { createResult := some "R1"
    videoFileExists := true
    videoUploadStatus := some 500
    audioFileExists := true
    audioUploadStatus := some 200
    completeOk := true
    storeWriteOk := true }

/-- Concrete promotion environment in which the video upload call
itself throws while everything else succeeds. -/
def envC3r : SyncEnv :=
  { createResult := some "R1"
    videoFileExists := true
    videoUploadStatus := none
    audioFileExists := true
    audioUploadStatus := some 200
    completeOk := true
    storeWriteOk := true }

/-- Concrete cloud listing entry used by reconciliation witnesses. -/
def cloudW : CloudRecording :=
  { id := "R9"
    start_time := 2000
    status := "processed"
    has_audio := true
    has_video := true }

/-- Elements surviving dropWhile never start with one satisfying the
predicate. -/
theorem head?_dropWhile_false {α : Type} {p : α → Bool} :
    ∀ (l : List α) (c : α), (l.dropWhile p).head? = some c → p c = false := by
  intro l
  induction l with
  | nil => intro c h; simp [List.dropWhile] at h
  | cons a l ih =>
    intro c h
    rw [List.dropWhile_cons] at h
    by_cases ha : p a = true
    · rw [if_pos ha] at h
      exact ih c h
    · rw [if_neg ha, List.head?_cons, Option.some_inj] at h
      subst h
      simpa using ha

/-- The dropWhile of a list keeps the original last element whenever
the result is non-empty. -/
theorem getLast?_dropWhile {α : Type} {p : α → Bool} :
    ∀ (l : List α), l.dropWhile p ≠ [] →
      (l.dropWhile p).getLast? = l.getLast? := by
  intro l
  induction l with
  | nil => intro h; simp [List.dropWhile] at h
  | cons a l ih =>
    intro h
    rw [List.dropWhile_cons] at h ⊢
    by_cases ha : p a = true
    · rw [if_pos ha] at h ⊢
      rw [ih h]
      cases l with
      | nil => simp [List.dropWhile] at h
      | cons b m => rw [List.getLast?_cons_cons]
    · rw [if_neg ha]

/-- Characters of a trimmed string: the head is never whitespace. -/
theorem trimChars_head (l : List Char) (c : Char) :
    (trimChars l).head? = some c → isSpaceChar c = false := by
  intro h
  unfold trimChars at h
  rw [List.head?_reverse] at h
  have hne : (List.dropWhile isSpaceChar (List.dropWhile isSpaceChar l).reverse) ≠ [] := by
    intro h0
    rw [h0] at h
    simp at h
  rw [getLast?_dropWhile _ hne, List.getLast?_reverse] at h
  exact head?_dropWhile_false l c h

/-- Characters of a trimmed string: the last is never whitespace. -/
theorem trimChars_getLast (l : List Char) (c : Char) :
    (trimChars l).getLast? = some c → isSpaceChar c = false := by
  intro h
  unfold trimChars at h
  rw [List.getLast?_reverse] at h
  exact head?_dropWhile_false _ c h

/-- A non-empty trimmed string is a wellformed payload. -/
theorem goodPayload_jsTrim (s : String) (h : jsTrim s ≠ "") :
    goodPayload (jsTrim s) := by
  refine ⟨h, ?_, ?_⟩
  · intro c hc
    exact trimChars_head s.data c hc
  · intro c hc
    exact trimChars_getLast s.data c hc

/-- A successful findIndex points at an element satisfying the
predicate. -/
theorem findIndex_some {α : Type} {p : α → Bool} :
    ∀ (l : List α) (i : ℕ), findIndex p l = some i →
      ∃ a, l.get? i = some a ∧ p a = true := by
  intro l
  induction l with
  | nil => intro i h; simp [findIndex] at h
  | cons a l ih =>
    intro i h
    by_cases hp : p a = true
    · simp [findIndex, hp] at h
      subst h
      exact ⟨a, rfl, hp⟩
    · simp [findIndex, hp] at h
      rcases h with ⟨j, hj, hji⟩
      rcases ih j hj with ⟨b, hb, hpb⟩
      subst hji
      exact ⟨b, by simpa using hb, hpb⟩

/-- Reading back the modified index gives the modified element. -/
theorem get?_modifyAt {α : Type} (f : α → α) :
    ∀ (l : List α) (i : ℕ), (modifyAt f l i).get? i = (l.get? i).map f := by
  intro l
  induction l with
  | nil => intro i; simp [modifyAt]
  | cons a l ih =>
    intro i
    cases i with
    | zero => simp [modifyAt]
    | succ j => simpa [modifyAt] using ih j

/-- C9: list() on the Local Session Store never raises: it is a total
function of the storage slot; an empty slot and unreadable (corrupt)
content both degrade to the empty list, and readable content is
returned as stored. -/
theorem getLocalRecordings_total_and_degrades :
    getLocalRecordings none = [] ∧
    getLocalRecordings (some RawValue.corrupt) = [] ∧
    ∀ recs, getLocalRecordings (some (RawValue.good recs)) = recs :=
  ⟨rfl, rfl, fun _ => rfl⟩

/-- C8: Clock.stop() is idempotent: a second stop returns the same
final elapsed-seconds and frame values and leaves the state unchanged,
and stopping a clock that is not running is a no-op returning the last
known values. -/
theorem clockStop_idempotent (c : ClockState) :
    clockStop (clockStop c).2 = ((clockStop c).1, (clockStop c).2) ∧
    (c.running = false → clockStop c = ((c.elapsedSeconds, c.frameCounter), c)) := by
  constructor
  · rfl
  · intro h
    unfold clockStop
    cases c
    simp_all

/-- Witness for clockStop_idempotent at a concrete stopped clock. -/
theorem clockStop_idempotent_witness :
    clockStop { running := false, elapsedSeconds := 5, frameCounter := 150 } =
      ((5, 150), { running := false, elapsedSeconds := 5, frameCounter := 150 }) :=
  (clockStop_idempotent _).2 rfl

/-- C1 counterexample: startRecording invoked on a state that is
already Recording session rec_A does not fail and does not leave the
original session unchanged: it installs fresh session rec_B and
discards rec_A's in-memory scan list. -/
theorem startRecording_while_recording_replaces_session :
    sRecordingA.isRecording = true ∧
    sRecordingA.currentRecording = some "rec_A" ∧
    sRecordingA.barcodeScans = [evA] ∧
    (startRecording (some devA) 9000 "rec_B" true sRecordingA).isRecording = true ∧
    (startRecording (some devA) 9000 "rec_B" true sRecordingA).currentRecording =
      some "rec_B" ∧
    (startRecording (some devA) 9000 "rec_B" true sRecordingA).barcodeScans = [] :=
  ⟨rfl, rfl, rfl, rfl, rfl, rfl⟩

/-- C1 (amended): at most one session is Recording because the record
button dispatches: it invokes startRecording only from a non-Recording
state, and while Recording (and not saving) it invokes stopRecording
instead; startRecording itself carries no InvalidState guard. -/
theorem record_button_no_start_while_recording (s : RecorderState) :
    (pressRecordAction s = RecAction.start → s.isRecording = false) ∧
    (s.isRecording = true → s.isSaving = false → pressRecordAction s = RecAction.stop) := by
  constructor
  · intro h
    by_cases hs : s.isSaving = true
    · simp [pressRecordAction, hs] at h
    · by_cases hr : s.isRecording = true
      · simp [pressRecordAction, hs, hr] at h
      · simpa using hr
  · intro hr hs
    simp [pressRecordAction, hs, hr]

/-- Witness for record_button_no_start_while_recording at the concrete
Recording state. -/
theorem record_button_no_start_while_recording_witness :
    pressRecordAction sRecordingA = RecAction.stop :=
  (record_button_no_start_while_recording sRecordingA).2 rfl rfl

/-- C4: when the create-remote-entry step fails, both promotion
routines abort immediately: the only attempted step is the create
call, the store slot (hence every uploaded flag and remote id) is
unchanged, and the failure is surfaced. -/
theorem promotion_aborts_on_create_failure (env : SyncEnv) (did : String)
    (dev : DeviceInfo) (slot : RawStore) (rec : LocalRecording)
    (h : env.createResult = none) :
    uploadToCloud env (some did) slot rec = ([Step.create], slot, none) ∧
    uploadRecordingToCloud env (some dev) slot rec = ([Step.create], slot, none) := by
  constructor
  · unfold uploadToCloud
    rw [h]
  · unfold uploadRecordingToCloud
    rw [h]

/-- Witness for promotion_aborts_on_create_failure at a concrete
environment whose create call fails. -/
theorem promotion_aborts_on_create_failure_witness :
    uploadToCloud c2StopEnv.uploadEnv (some "DEV1") slotC3 recC3 =
      ([Step.create], slotC3, none) ∧
    uploadRecordingToCloud c2StopEnv.uploadEnv (some devA) slotC3 recC3 =
      ([Step.create], slotC3, none) :=
  promotion_aborts_on_create_failure _ "DEV1" devA slotC3 recC3 rfl

/-- C7: a scan outside Recording is rejected with no effect (the
NoActiveSession rejection is realized as the guard's early return: no
event is created and nothing changes); a scan during Recording with a
non-empty trimmed payload appends exactly one Scan Event (the previous
list is kept as a prefix, nothing is removed); and two scans with the
identical raw payload in the same session append two separate Scan
Events with no de-duplication. -/
theorem handleBarcode_semantics (now now2 : ℕ) (s : RecorderState) (p : String) :
    (s.isRecording = false → handleBarcode now s = s) ∧
    (s.isRecording = true → jsTrim s.barcodeInput ≠ "" →
      (handleBarcode now s).barcodeScans = s.barcodeScans ++
        [{ barcode_data := jsTrim s.barcodeInput
           video_timestamp := ((now : ℚ) - (s.recordingStartTime : ℚ)) / 1000
           frame_code := s.frameCount }]) ∧
    (s.isRecording = true → jsTrim p ≠ "" →
      (submitScan (submitScan s now p) now2 p).barcodeScans = s.barcodeScans ++
        [{ barcode_data := jsTrim p
           video_timestamp := ((now : ℚ) - (s.recordingStartTime : ℚ)) / 1000
           frame_code := s.frameCount },
         { barcode_data := jsTrim p
           video_timestamp := ((now2 : ℚ) - (s.recordingStartTime : ℚ)) / 1000
           frame_code := s.frameCount }] ∧
      (submitScan (submitScan s now p) now2 p).barcodeCount = s.barcodeCount + 2) := by
  refine ⟨?_, ?_, ?_⟩
  · intro h
    unfold handleBarcode
    rw [if_pos]
    simp [h]
  · intro h ht
    unfold handleBarcode
    rw [if_neg (by simp [h, ht])]
  · intro h ht
    have h1 : submitScan s now p =
        { s with
          barcodeScans := s.barcodeScans ++
            [{ barcode_data := jsTrim p
               video_timestamp := ((now : ℚ) - (s.recordingStartTime : ℚ)) / 1000
               frame_code := s.frameCount }]
          barcodeCount := s.barcodeCount + 1
          barcodeInput := "" } := by
      unfold submitScan handleBarcode
      rw [if_neg (by simp [h, ht])]
    have h2 : submitScan (submitScan s now p) now2 p =
        { s with
          barcodeScans := s.barcodeScans ++
            [{ barcode_data := jsTrim p
               video_timestamp := ((now : ℚ) - (s.recordingStartTime : ℚ)) / 1000
               frame_code := s.frameCount },
             { barcode_data := jsTrim p
               video_timestamp := ((now2 : ℚ) - (s.recordingStartTime : ℚ)) / 1000
               frame_code := s.frameCount }]
          barcodeCount := s.barcodeCount + 1 + 1
          barcodeInput := "" } := by
      rw [h1]
      unfold submitScan handleBarcode
      rw [if_neg (by simp [h, ht])]
      simp
    rw [h2]
    exact ⟨rfl, rfl⟩

/-- Witness for handleBarcode_semantics: two identical raw scans in
the concrete session append two separate events. -/
theorem handleBarcode_semantics_witness :
    (submitScan (submitScan sRecordingA 5700 " BADGE-9 ") 6200 " BADGE-9 ").barcodeScans =
      sRecordingA.barcodeScans ++
        [{ barcode_data := jsTrim " BADGE-9 "
           video_timestamp := ((5700 : ℚ) - (sRecordingA.recordingStartTime : ℚ)) / 1000
           frame_code := sRecordingA.frameCount },
         { barcode_data := jsTrim " BADGE-9 "
           video_timestamp := ((6200 : ℚ) - (sRecordingA.recordingStartTime : ℚ)) / 1000
           frame_code := sRecordingA.frameCount }] :=
  ((handleBarcode_semantics 5700 6200 sRecordingA " BADGE-9 ").2.2 rfl (by decide)).1

/-- C10: scan payloads are trimmed before being recorded: an input
whose trimmed form is empty is rejected without creating an event; a
recorded scan stores exactly the trimmed input; and the invariant that
every stored Scan Event carries a non-empty payload without leading or
trailing whitespace is preserved by every scan submission. -/
theorem handleBarcode_trims_payload (now : ℕ) (s : RecorderState) :
    (jsTrim s.barcodeInput = "" → handleBarcode now s = s) ∧
    (s.isRecording = true → jsTrim s.barcodeInput ≠ "" →
      ∃ ts fc, (handleBarcode now s).barcodeScans = s.barcodeScans ++
        [{ barcode_data := jsTrim s.barcodeInput, video_timestamp := ts, frame_code := fc }]) ∧
    ((∀ e ∈ s.barcodeScans, goodPayload e.barcode_data) →
      ∀ e ∈ (handleBarcode now s).barcodeScans, goodPayload e.barcode_data) := by
  refine ⟨?_, ?_, ?_⟩
  · intro h
    unfold handleBarcode
    rw [if_pos]
    simp [h]
  · intro h ht
    refine ⟨((now : ℚ) - (s.recordingStartTime : ℚ)) / 1000, s.frameCount, ?_⟩
    unfold handleBarcode
    rw [if_neg (by simp [h, ht])]
  · intro hall e he
    by_cases hg : (jsTrim s.barcodeInput = "" || !s.isRecording) = true
    · unfold handleBarcode at he
      rw [if_pos hg] at he
      exact hall e he
    · unfold handleBarcode at he
      rw [if_neg hg] at he
      simp at he
      rcases he with he | he
      · exact hall e he
      · subst he
        have ht : jsTrim s.barcodeInput ≠ "" := by
          intro h0
          simp [h0] at hg
        exact goodPayload_jsTrim _ ht

/-- Witness for handleBarcode_trims_payload at a concrete scan whose
raw input carries surrounding whitespace. -/
theorem handleBarcode_trims_payload_witness :
    ∃ ts fc,
      (handleBarcode 5700 { sRecordingA with barcodeInput := " BADGE-9 " }).barcodeScans =
        [evA] ++
        [{ barcode_data := jsTrim " BADGE-9 ", video_timestamp := ts, frame_code := fc }] :=
  (handleBarcode_trims_payload 5700
    { sRecordingA with barcodeInput := " BADGE-9 " }).2.1 rfl (by decide)

/-- Characterization of a sequence of scan submissions during one
session: the accumulated event list is the original list followed by
one event per submission whose trimmed payload is non-empty, carrying
that trimmed payload and the elapsed time since session start. -/
theorem runScans_barcodeScans (t0 fc : ℕ) :
    ∀ (scans : List (ℕ × String)) (s : RecorderState), s.isRecording = true →
      s.recordingStartTime = t0 → s.frameCount = fc →
      (runScans s scans).barcodeScans = s.barcodeScans ++
        (scans.filter (fun p => !(jsTrim p.2 == ""))).map
          (fun p => { barcode_data := jsTrim p.2
                      video_timestamp := ((p.1 : ℚ) - (t0 : ℚ)) / 1000
                      frame_code := fc }) := by
  intro scans
  induction scans with
  | nil =>
    intro s h1 h2 h3
    simp [runScans]
  | cons pr rest ih =>
    intro s h1 h2 h3
    have hstep : runScans s (pr :: rest) = runScans (submitScan s pr.1 pr.2) rest := rfl
    rw [hstep]
    by_cases hp : jsTrim pr.2 = ""
    · have hsub : submitScan s pr.1 pr.2 = { s with barcodeInput := pr.2 } := by
        unfold submitScan handleBarcode
        rw [if_pos (by simp [hp])]
      rw [hsub, ih { s with barcodeInput := pr.2 } h1 h2 h3]
      simp [List.filter_cons, hp]
    · have hsub : submitScan s pr.1 pr.2 =
          { s with
            barcodeScans := s.barcodeScans ++
              [{ barcode_data := jsTrim pr.2
                 video_timestamp := ((pr.1 : ℚ) - (t0 : ℚ)) / 1000
                 frame_code := fc }]
            barcodeCount := s.barcodeCount + 1
            barcodeInput := "" } := by
        unfold submitScan handleBarcode
        rw [if_neg (by simp [h1, hp])]
        rw [h2, h3]
      rw [hsub, ih { s with
            barcodeScans := s.barcodeScans ++
              [{ barcode_data := jsTrim pr.2
                 video_timestamp := ((pr.1 : ℚ) - (t0 : ℚ)) / 1000
                 frame_code := fc }]
            barcodeCount := s.barcodeCount + 1
            barcodeInput := "" } h1 h2 h3]
      simp [List.filter_cons, hp]
  
/-- Arithmetic bound relating a millisecond count to its
whole-second truncation. -/
theorem natCast_div_lt_floor_add_one (n : ℕ) :
    (n : ℚ) / 1000 < ((n / 1000 : ℕ) : ℚ) + 1 := by
  rw [div_lt_iff₀ (by norm_num : (0 : ℚ) < 1000)]
  have h : n < (n / 1000 + 1) * 1000 := by
    have hd := Nat.div_add_mod n 1000
    have hm : n % 1000 < 1000 := Nat.mod_lt _ (by norm_num)
    omega
  have h2 : (n : ℚ) < (((n / 1000 + 1) * 1000 : ℕ) : ℚ) := by
    exact_mod_cast h
  push_cast at h2
  linarith

/-- C2 (amended): for a session recorded from t0 to tEnd with scan
submissions at non-decreasing wall-clock times inside the session
window, every recorded Scan Event timestamp is at least 0 and less
than the recorded duration plus one second (a scan falling in the
fraction of a second after the last whole-second tick can exceed the
integer duration by less than one second), and the timestamps across
the session's event list are non-decreasing. -/
theorem session_timestamps_bounded_and_monotone (t0 tEnd : ℕ)
    (scans : List (ℕ × String)) (s : RecorderState)
    (hrec : s.isRecording = true) (hstart : s.recordingStartTime = t0)
    (hempty : s.barcodeScans = [])
    (hbounds : ∀ p ∈ scans, t0 ≤ p.1 ∧ p.1 ≤ tEnd)
    (hsorted : scans.Pairwise (fun p q => p.1 ≤ q.1)) :
    (∀ e ∈ (runScans s scans).barcodeScans,
      0 ≤ e.video_timestamp ∧
      e.video_timestamp < ((sessionDuration t0 tEnd : ℕ) : ℚ) + 1) ∧
    ((runScans s scans).barcodeScans.map
      (fun e => e.video_timestamp)).Pairwise (· ≤ ·) := by
  rw [runScans_barcodeScans t0 s.frameCount scans s hrec hstart rfl, hempty]
  constructor
  · intro e he
    simp only [List.nil_append, List.mem_map, List.mem_filter] at he
    rcases he with ⟨p, ⟨hpmem, _⟩, hpe⟩
    rcases hbounds p hpmem with ⟨hlo, hhi⟩
    subst hpe
    constructor
    · apply div_nonneg _ (by norm_num)
      simp only [sub_nonneg]
      exact_mod_cast hlo
    · have hle : ((p.1 : ℚ) - (t0 : ℚ)) / 1000 ≤ (((tEnd - t0 : ℕ) : ℚ)) / 1000 := by
        apply (div_le_div_iff_of_pos_right (by norm_num : (0 : ℚ) < 1000)).mpr
        have ht0 : (t0 : ℕ) ≤ tEnd := le_trans hlo hhi
        rw [Nat.cast_sub ht0]
        apply sub_le_sub_right
        exact_mod_cast hhi
      calc ((p.1 : ℚ) - (t0 : ℚ)) / 1000
          ≤ (((tEnd - t0 : ℕ) : ℚ)) / 1000 := hle
        _ < (((tEnd - t0) / 1000 : ℕ) : ℚ) + 1 := natCast_div_lt_floor_add_one _
        _ = ((sessionDuration t0 tEnd : ℕ) : ℚ) + 1 := rfl
  · rw [List.nil_append, List.map_map]
    apply List.Pairwise.map
    · intro p q hpq
      simp only [Function.comp]
      apply (div_le_div_iff_of_pos_right (by norm_num : (0 : ℚ) < 1000)).mpr
      apply sub_le_sub_right
      exact_mod_cast hpq
    · exact hsorted.filter _

/-- Witness for session_timestamps_bounded_and_monotone on a concrete
run with two scans. -/
theorem session_timestamps_bounded_and_monotone_witness :
    (∀ e ∈ (runScans (startRecording (some devA) 0 "rec_1" true sIdle)
        [(2500, "BADGE-001"), (5700, "BADGE-002")]).barcodeScans,
      0 ≤ e.video_timestamp ∧
      e.video_timestamp < ((sessionDuration 0 5900 : ℕ) : ℚ) + 1) ∧
    ((runScans (startRecording (some devA) 0 "rec_1" true sIdle)
        [(2500, "BADGE-001"), (5700, "BADGE-002")]).barcodeScans.map
      (fun e => e.video_timestamp)).Pairwise (· ≤ ·) :=
  session_timestamps_bounded_and_monotone 0 5900
    [(2500, "BADGE-001"), (5700, "BADGE-002")]
    (startRecording (some devA) 0 "rec_1" true sIdle)
    rfl rfl rfl (by decide) (by decide)

/-- C2 counterexample: in the concrete run started at t = 0 with one
scan at t = 5700 ms and stop at t = 5900 ms, the persisted session has
duration 5 but its single Scan Event carries timestamp 5.7, so a
recorded timestamp strictly exceeds the session's final duration. -/
theorem scan_timestamp_exceeds_final_duration :
    c2Record.duration = 5 ∧
    ∃ e ∈ c2Record.barcodeScansList, ¬(e.video_timestamp ≤ (c2Record.duration : ℚ)) := by
  have hdur : c2Record.duration = 5 := rfl
  have hlist : c2Record.barcodeScansList =
      [{ barcode_data := "BADGE-001"
         video_timestamp := ((5700 : ℚ) - ((0 : ℕ) : ℚ)) / 1000
         frame_code := 0 }] := rfl
  refine ⟨hdur, _, by rw [hlist]; exact List.mem_singleton_self _, ?_⟩
  rw [hdur]
  push_cast
  norm_num

/-- The video-handle wait is bounded by 100 polls in every
environment. -/
theorem pollForVideo_le (a : Option (ℕ × String)) : (pollForVideo a).2 ≤ 100 := by
  unfold pollForVideo
  rcases a with _ | ⟨k, u⟩
  · simp
  · by_cases hk : k < 100
    · simp [hk]
      omega
    · simp [hk]

/-- C6: end() from Recording always completes finalization: the wait
for a pending video handle is bounded by 100 short polls in every run,
and when the handle never arrives (and the store write succeeds, with
auto upload off) stopRecording still assembles the Local Session with
the video marked absent, writes it at the head of the store, and
returns the screen to Idle (no active session, not saving) without
surfacing any error. -/
theorem stopRecording_bounded_and_degrades (env : StopEnv) (dev : Option DeviceInfo)
    (s : RecorderState) (slot : RawStore) (lid : String)
    (h1 : s.currentRecording = some lid)
    (h2 : s.videoRecordingActive = true)
    (h3 : env.videoArrival = none)
    (h4 : env.storeWriteOk = true)
    (h5 : env.autoUpload = false) :
    (∀ (env2 : StopEnv) (dev2 : Option DeviceInfo) (s2 : RecorderState) (slot2 : RawStore),
      (stopRecording env2 dev2 s2 slot2).2.2 ≤ 100) ∧
    (stopRecording env dev s slot).2.2 = 100 ∧
    (stopRecording env dev s slot).1.currentRecording = none ∧
    (stopRecording env dev s slot).1.isSaving = false ∧
    ∃ r, getLocalRecordings (stopRecording env dev s slot).2.1 =
        r :: getLocalRecordings slot ∧
      r.videoPath = none ∧ r.localId = lid ∧ r.isUploaded = false ∧
      r.duration = s.recordingTime ∧ r.barcodeScansList = s.barcodeScans := by
  constructor
  · intro env2 dev2 s2 slot2
    unfold stopRecording
    rcases hc : s2.currentRecording with _ | lid2
    · simp
    · by_cases hw : env2.storeWriteOk = true
      · by_cases hv : s2.videoRecordingActive = true
        · simp [hw, hv, pollForVideo_le]
        · simp [hw, hv]
      · by_cases hv : s2.videoRecordingActive = true
        · simp [hw, hv, pollForVideo_le]
        · simp [hw, hv]
  · unfold stopRecording
    rw [h1]
    simp only [h2, h3, h4, h5, pollForVideo, if_true, Bool.false_and, Bool.true_and]
    refine ⟨trivial, trivial, trivial, ?_⟩
    exact ⟨_, rfl, rfl, rfl, rfl, rfl, rfl⟩

/-- Witness for stopRecording_bounded_and_degrades at a concrete run
whose video handle never arrives. -/
theorem stopRecording_bounded_and_degrades_witness :
    (∀ (env2 : StopEnv) (dev2 : Option DeviceInfo) (s2 : RecorderState) (slot2 : RawStore),
      (stopRecording env2 dev2 s2 slot2).2.2 ≤ 100) ∧
    (stopRecording c2StopEnv (some devA) sRecordingA none).2.2 = 100 ∧
    (stopRecording c2StopEnv (some devA) sRecordingA none).1.currentRecording = none ∧
    (stopRecording c2StopEnv (some devA) sRecordingA none).1.isSaving = false ∧
    ∃ r, getLocalRecordings (stopRecording c2StopEnv (some devA) sRecordingA none).2.1 =
        r :: getLocalRecordings none ∧
      r.videoPath = none ∧ r.localId = "rec_A" ∧ r.isUploaded = false ∧
      r.duration = sRecordingA.recordingTime ∧
      r.barcodeScansList = sRecordingA.barcodeScans :=
  stopRecording_bounded_and_degrades c2StopEnv (some devA) sRecordingA none "rec_A"
    rfl rfl rfl rfl rfl

/-- Membership is preserved by the insertion step of the date sort. -/
theorem mem_insertByDateDesc (x y : CombinedRecording) :
    ∀ l, y ∈ insertByDateDesc x l ↔ y = x ∨ y ∈ l := by
  intro l
  induction l with
  | nil => simp [insertByDateDesc]
  | cons a l ih =>
    unfold insertByDateDesc
    by_cases h : combinedDate a ≤ combinedDate x
    · rw [if_pos h]
      simp
    · rw [if_neg h]
      simp only [List.mem_cons, ih]
      tauto

/-- Membership is preserved by the date sort. -/
theorem mem_sortByDateDesc (y : CombinedRecording) :
    ∀ l, y ∈ sortByDateDesc l ↔ y ∈ l := by
  intro l
  induction l with
  | nil => simp [sortByDateDesc]
  | cons a l ih =>
    have hstep : sortByDateDesc (a :: l) = insertByDateDesc a (sortByDateDesc l) := rfl
    rw [hstep, mem_insertByDateDesc, ih]
    simp

/-- After the markUploaded store update, every remaining entry whose
local id is the promoted one carries uploaded = true, provided the
store held at most one entry with that local id. -/
theorem markUploaded_all_flagged (lid rid : String) :
    ∀ (locals : List LocalRecording) (idx : ℕ),
      findIndex (fun r => r.localId == lid) locals = some idx →
      locals.countP (fun r => r.localId == lid) ≤ 1 →
      ∀ r ∈ modifyAt (fun r => { r with id := rid, isUploaded := true }) locals idx,
        r.localId = lid → r.isUploaded = true := by
  intro locals
  induction locals with
  | nil => intro idx h; simp [findIndex] at h
  | cons a l ih =>
    intro idx hfind hcount r hr hrlid
    by_cases ha : (a.localId == lid) = true
    · simp [findIndex, ha] at hfind
      subst hfind
      simp only [modifyAt, List.mem_cons] at hr
      rcases hr with hr | hr
      · subst hr
        rfl
      · have h1 : List.countP (fun r => r.localId == lid) (a :: l) =
            List.countP (fun r => r.localId == lid) l + 1 :=
          List.countP_cons_of_pos _ _ ha
        have h0 : List.countP (fun r => r.localId == lid) l = 0 := by omega
        have h2 := List.countP_eq_zero.mp h0 r hr
        simp [hrlid] at h2
    · simp [findIndex, ha] at hfind
      rcases hfind with ⟨j, hj, hji⟩
      subst hji
      simp only [modifyAt, List.mem_cons] at hr
      rcases hr with hr | hr
      · subst hr
        simp [hrlid] at ha
      · have hcl : List.countP (fun r => r.localId == lid) l ≤ 1 := by
          have := List.countP_cons_of_neg (fun r => r.localId == lid) l
            (by simpa using ha)
          omega
        exact ih j hj hcl r hr hrlid

/-- C5: the reconciliation list contains a Local entry only for
sessions whose uploaded flag is false, so once markUploaded succeeds
for a session (present at most once in the store), a later list() never
shows that session as a Local entry — it can only appear through its
Cloud entry. -/
theorem reconciliation_no_local_after_markUploaded (slot : RawStore) (lid rid : String)
    (cloudResult : Option (List CloudRecording))
    (hcount : (getLocalRecordings slot).countP (fun r => r.localId == lid) ≤ 1)
    (hfound : findIndex (fun r => r.localId == lid) (getLocalRecordings slot) ≠ none) :
    (∀ e ∈ fetchRecordings (markUploaded slot lid rid) cloudResult,
      ∀ r, e = CombinedRecording.localRec r → r.localId ≠ lid) ∧
    (∀ (slot2 : RawStore) (cr2 : Option (List CloudRecording)) (r : LocalRecording),
      CombinedRecording.localRec r ∈ fetchRecordings slot2 cr2 →
      r.isUploaded = false) := by
  have hlocal : ∀ (slot2 : RawStore) (cr2 : Option (List CloudRecording))
      (r : LocalRecording),
      CombinedRecording.localRec r ∈ fetchRecordings slot2 cr2 →
      r.isUploaded = false ∧ r ∈ getLocalRecordings slot2 := by
    intro slot2 cr2 r hmem
    unfold fetchRecordings at hmem
    rw [mem_sortByDateDesc] at hmem
    rw [List.mem_append] at hmem
    rcases hmem with hmem | hmem
    · rw [List.mem_map] at hmem
      rcases hmem with ⟨r2, hr2, heq⟩
      cases heq
      rw [List.mem_filter] at hr2
      refine ⟨by simpa using hr2.2, hr2.1⟩
    · rw [List.mem_map] at hmem
      rcases hmem with ⟨c, _, heq⟩
      cases heq
  constructor
  · intro e he r her hrl
    subst her
    rcases hlocal _ _ _ he with ⟨hup, hin⟩
    rcases hidx : findIndex (fun r => r.localId == lid) (getLocalRecordings slot)
      with _ | idx
    · exact hfound hidx
    · have hslot : getLocalRecordings (markUploaded slot lid rid) =
          modifyAt (fun r => { r with id := rid, isUploaded := true })
            (getLocalRecordings slot) idx := by
        unfold markUploaded
        rw [hidx]
        rfl
      rw [hslot] at hin
      have := markUploaded_all_flagged lid rid (getLocalRecordings slot) idx
        hidx hcount r hin hrl
      rw [this] at hup
      exact Bool.noConfusion hup
  · intro slot2 cr2 r hmem
    exact (hlocal slot2 cr2 r hmem).1

/-- Witness for reconciliation_no_local_after_markUploaded at the
concrete one-session store. -/
theorem reconciliation_no_local_after_markUploaded_witness :
    (∀ e ∈ fetchRecordings (markUploaded slotC3 "rec_1" "R9") (some [cloudW]),
      ∀ r, e = CombinedRecording.localRec r → r.localId ≠ "rec_1") ∧
    (∀ (slot2 : RawStore) (cr2 : Option (List CloudRecording)) (r : LocalRecording),
      CombinedRecording.localRec r ∈ fetchRecordings slot2 cr2 →
      r.isUploaded = false) :=
  reconciliation_no_local_after_markUploaded slotC3 "rec_1" "R9" (some [cloudW])
    (by decide) (by decide)

/-- C3 counterexample: in the gallery promotion (uploadToCloud of the
gallery screen) with the concrete environment where only the video
upload fails (HTTP 500) and every later step would succeed, the
promotion aborts right after the video step: audio upload, scan
submission, completion and the store update are never attempted, the
attempt surfaces a failure, and the session's uploaded flag stays
false — the claim that the promotion still runs to the end with the
flag set true is false on this code path. -/
theorem gallery_promotion_aborts_on_video_failure :
    uploadToCloud envC3 (some "DEV1") slotC3 recC3 =
      ([Step.create, Step.videoUpload], slotC3, none) ∧
    ∀ r ∈ getLocalRecordings (uploadToCloud envC3 (some "DEV1") slotC3 recC3).2.1,
      r.isUploaded = false := by
  constructor
  · rfl
  · intro r hr
    rw [show (uploadToCloud envC3 (some "DEV1") slotC3 recC3).2.1 = slotC3 from rfl] at hr
    simp only [slotC3, getLocalRecordings, List.mem_singleton] at hr
    rw [hr]
    rfl

/-- C3 (amended): the recorder auto-upload promotion
(uploadRecordingToCloud) swallows media-upload failures: when the video
upload is attempted and fails but remote-entry creation, completion and
the store write succeed for a session present in the store, the
promotion runs to the end, returns the remote id, and sets the
session's uploaded flag to true; the gallery promotion (uploadToCloud)
instead aborts on a failed video upload, as the counterexample shows. -/
theorem recorder_promotion_survives_video_failure (env : SyncEnv) (dev : DeviceInfo)
    (slot : RawStore) (rec : LocalRecording) (rid : String) (idx : ℕ)
    (hcreate : env.createResult = some rid)
    (hvp : rec.videoPath.isSome = true)
    (hvf : env.videoFileExists = true)
    (_hvfail : env.videoUploadStatus = none)
    (hcomplete : env.completeOk = true)
    (hwrite : env.storeWriteOk = true)
    (hfound : findIndex (fun r => r.localId == rec.localId)
      (getLocalRecordings slot) = some idx) :
    Step.videoUpload ∈ (uploadRecordingToCloud env (some dev) slot rec).1 ∧
    (uploadRecordingToCloud env (some dev) slot rec).2.2 = some rid ∧
    ∃ r0, (getLocalRecordings (uploadRecordingToCloud env (some dev) slot rec).2.1).get? idx =
        some r0 ∧
      r0.localId = rec.localId ∧ r0.isUploaded = true ∧ r0.id = rid := by
  unfold uploadRecordingToCloud
  rw [hcreate]
  simp only [hcomplete, hvp, hvf, hwrite, hfound, Bool.not_true, Bool.true_and,
    Bool.and_self, if_true, if_false, Bool.false_eq_true, ite_false, ite_true]
  refine ⟨?_, ?_, ?_⟩
  · simp
  · trivial
  · rcases findIndex_some (getLocalRecordings slot) idx hfound with ⟨a, ha, hpa⟩
    refine ⟨{ a with id := rid, isUploaded := true }, ?_, ?_, rfl, rfl⟩
    · rw [show getLocalRecordings
          (some (RawValue.good (modifyAt
            (fun r => { r with id := rid, isUploaded := true })
            (getLocalRecordings slot) idx))) =
          modifyAt (fun r => { r with id := rid, isUploaded := true })
            (getLocalRecordings slot) idx from rfl]
      rw [get?_modifyAt _ (getLocalRecordings slot) idx, ha]
      rfl
    · simpa using hpa

/-- Witness for recorder_promotion_survives_video_failure at the
concrete session and environment. -/
theorem recorder_promotion_survives_video_failure_witness :
    Step.videoUpload ∈ (uploadRecordingToCloud envC3r (some devA) slotC3 recC3).1 ∧
    (uploadRecordingToCloud envC3r (some devA) slotC3 recC3).2.2 = some "R1" ∧
    ∃ r0, (getLocalRecordings
        (uploadRecordingToCloud envC3r (some devA) slotC3 recC3).2.1).get? 0 =
        some r0 ∧
      r0.localId = recC3.localId ∧ r0.isUploaded = true ∧ r0.id = "R1" :=
  recorder_promotion_survives_video_failure envC3r devA slotC3 recC3 "R1" 0
    rfl rfl rfl rfl rfl rfl (by decide)

end XoW
